import Mathlib

/-!
Shallow embedding of the S-57 chart-assembly core of beetlebugorg/s57
(internal/parser: feature.go, spatial.go, dataset.go, updates.go,
topology.go, geometry.go, validation.go, and the files holding
catalog.go / parser.go content).

Bytes are modelled as `Nat` (each entry a value below 256 in real inputs),
byte slices as `List Nat`, Go `float64` arithmetic as exact `ℚ` arithmetic,
Go maps as association lists, and Go pointers (where their aliasing is
observable, in the update merger) as allocation tokens.  Fallible Go
functions returning `error` are modelled with `Except String` / `Option`.
-/

namespace S57

/-- Little-endian 16-bit read: `binary.LittleEndian.Uint16`. -/
def le16 (b0 b1 : Nat) : Nat := b0 + 256 * b1

/-- Little-endian 32-bit read: `binary.LittleEndian.Uint32`. -/
def le32 (b0 b1 b2 b3 : Nat) : Nat := b0 + 256 * b1 + 65536 * b2 + 16777216 * b3

/-- Reinterpretation of an unsigned 32-bit value as a signed `int32`
(`int32(binary.LittleEndian.Uint32(...))`). -/
def toInt32 (n : Nat) : Int :=
  if n % 4294967296 < 2147483648 then (n % 4294967296 : Int)
  else (n % 4294967296 : Int) - 4294967296

/-- Go `string(bytes)` on a byte slice. -/
def bytesToString (bs : List Nat) : String := String.mk (bs.map Char.ofNat)

/-- Go `strings.TrimRight(s, "\x00 ")`: drop trailing NUL and space bytes. -/
def trimRightNulSpace (bs : List Nat) : List Nat :=
  (bs.reverse.dropWhile (fun b => b = 0 || b = 32)).reverse

/-- A decoded ISO 8211 data record as the parser sees it: a map from field
tag to raw field bytes (`record.Fields`), modelled as an association list. -/
def Record := List (String × List Nat)

/-- Field lookup `record.Fields[tag]`. -/
def getField (r : Record) (tag : String) : Option (List Nat) :=
  (r.find? (fun p => p.1 = tag)).map (·.2)

/-! ## Attribute parsing (internal/parser/feature.go `parseAttributes`,
and the attribute catalogue of catalog.go). -/

/-- The attribute catalogue `attributeNames` is loaded from an embedded CSV
resource that is not part of the source tree; we model the loaded table
abstractly as an association list from attribute code to acronym. -/
def AttrCatalogue := List (Nat × String)

/-- Catalogue lookup `AttributeCodeToString` (catalog.go): the acronym for a
catalogued code, and the literal `ATTR_<code>` for an uncatalogued one. -/
def AttributeCodeToString (catalogue : AttrCatalogue) (code : Nat) : String :=
  match catalogue.find? (fun p => p.1 = code) with
  | some p => p.2
  | none => "ATTR_" ++ toString code

/-- The `parseAttributes` of internal/parser/feature.go (lines 377-405):
repeated `[ATTL(2 bytes), ATVL(ASCII until 0x1F)]`; the key is always the
literal `ATTR_<code>` string (this copy of the function performs no
catalogue lookup), and the value is stored as a string.  Entries with an
empty value are not stored, mirroring the `valueEnd > offset` guard. -/
def parseAttributes (data : List Nat) : List (String × String) :=
  match data with
  | b0 :: b1 :: rest =>
    let attrCode := le16 b0 b1
    let value := rest.takeWhile (fun b => b ≠ 31)
    (if value.length > 0 then
      [("ATTR_" ++ toString attrCode, bytesToString value)]
    else []) ++
      parseAttributes (rest.drop ((rest.takeWhile (fun b => b ≠ 31)).length + 1))
  | _ => []
termination_by data.length
decreasing_by
  have h2 := List.length_drop ((rest.takeWhile (fun b => b ≠ 31)).length + 1) rest
  simp only [List.length_cons]
  omega

/-- The claimed attribute-key rule (spec side, for comparison with the code):
look the code up in the catalogue, falling back to `ATTR_<code>` only for
absent codes.  This is exactly `AttributeCodeToString`. -/
def claimedAttributeKey (catalogue : AttrCatalogue) (code : Nat) : String :=
  AttributeCodeToString catalogue code

/-! ## Feature records (internal/parser/feature.go). -/

/-- A feature-to-spatial pointer parsed from FSPT (`spatialRef`). -/
structure spatialRef where
  RCID : Int
  Orientation : Nat
  Usage : Nat
  Mask : Nat
deriving DecidableEq, Repr

/-- The `parseSpatialPointers` of feature.go: fixed 8-byte stride
`NAME_RCNM(1) NAME_RCID(4) ORNT(1) USAG(1) MASK(1)`; the leading RCNM byte
is skipped, RCID is an unsigned 32-bit little-endian value. -/
def parseSpatialPointers (data : List Nat) : List spatialRef :=
  match data with
  | _r :: b1 :: b2 :: b3 :: b4 :: o :: u :: m :: rest =>
    { RCID := (le32 b1 b2 b3 b4 : Int), Orientation := o, Usage := u, Mask := m }
      :: parseSpatialPointers rest
  | _ => []

/-- A parsed S-57 feature record (`featureRecord`).  Attribute values are
strings; the attribute map is kept as the ordered list of parsed pairs. -/
structure featureRecord where
  ID : Int
  AGEN : Nat
  FIDN : Nat
  FIDS : Nat
  ObjectClass : Nat
  GeomPrim : Nat
  Group : Nat
  RecordVersion : Nat
  UpdateInstr : Nat
  Attributes : List (String × String)
  SpatialRefs : List spatialRef
deriving DecidableEq, Repr

/-- The `parseFeatureRecord` of feature.go: requires an FRID field of at
least 12 bytes with RCNM byte 100; decodes PRIM, GRUP, OBJL, RVER, RUIN at
their fixed offsets; optionally decodes FOID (8 bytes), ATTF and FSPT. -/
def parseFeatureRecord (record : Record) : Option featureRecord :=
  match getField record "FRID" with
  | none => none
  | some fridData =>
    if fridData.length < 12 then none
    else if fridData.getD 0 0 ≠ 100 then none
    else
      let base : featureRecord :=
        { ID := 0, AGEN := 0, FIDN := 0, FIDS := 0
          ObjectClass := le16 (fridData.getD 7 0) (fridData.getD 8 0)
          GeomPrim := fridData.getD 5 0
          Group := fridData.getD 6 0
          RecordVersion := le16 (fridData.getD 9 0) (fridData.getD 10 0)
          UpdateInstr := fridData.getD 11 0
          Attributes := [], SpatialRefs := [] }
      let withFoid :=
        match getField record "FOID" with
        | some foidData =>
          if foidData.length ≥ 8 then
            let fidn := le32 (foidData.getD 2 0) (foidData.getD 3 0)
              (foidData.getD 4 0) (foidData.getD 5 0)
            { base with
              AGEN := le16 (foidData.getD 0 0) (foidData.getD 1 0)
              FIDN := fidn
              FIDS := le16 (foidData.getD 6 0) (foidData.getD 7 0)
              ID := (fidn : Int) }
          else base
        | none => base
      let withAttf :=
        match getField record "ATTF" with
        | some attfData => { withFoid with Attributes := parseAttributes attfData }
        | none => withFoid
      match getField record "FSPT" with
      | some fsptData => some { withAttf with SpatialRefs := parseSpatialPointers fsptData }
      | none => some withAttf

/-! ## Spatial records (internal/parser/spatial.go). -/

/-- A vector-record pointer parsed from VRPT (`vectorPointer`). -/
structure vectorPointer where
  TargetRCNM : Nat
  TargetRCID : Int
  Orientation : Nat
  Usage : Nat
  Topology : Nat
  Mask : Nat
deriving DecidableEq, Repr

/-- The `parseVectorPointers` of spatial.go: fixed 9-byte stride
`NAME_RCNM(1) NAME_RCID(4) ORNT(1) USAG(1) TOPI(1) MASK(1)`. -/
def parseVectorPointers (data : List Nat) : List vectorPointer :=
  match data with
  | r :: b1 :: b2 :: b3 :: b4 :: o :: u :: t :: m :: rest =>
    { TargetRCNM := r, TargetRCID := (le32 b1 b2 b3 b4 : Int),
      Orientation := o, Usage := u, Topology := t, Mask := m }
      :: parseVectorPointers rest
  | _ => []

/-- The `convertCoordinate` of dataset.go (lines 230-236): divide the signed
integer by the multiplication factor, substituting 10⁷ for a factor that is
zero or negative.  Go float64 division is modelled as exact `ℚ` division. -/
def convertCoordinate (value : Int) (comf : Int) : ℚ :=
  if comf ≤ 0 then (value : ℚ) / 10000000
  else (value : ℚ) / (comf : ℚ)

/-- The `parseCoordinates2D` of spatial.go: repeated 8-byte pairs of signed
32-bit integers read as `(x, y)` and scaled by COMF into `[lon, lat]`. -/
def parseCoordinates2D (data : List Nat) (comf : Int) : List (List ℚ) :=
  match data with
  | x0 :: x1 :: x2 :: x3 :: y0 :: y1 :: y2 :: y3 :: rest =>
    [convertCoordinate (toInt32 (le32 x0 x1 x2 x3)) comf,
     convertCoordinate (toInt32 (le32 y0 y1 y2 y3)) comf]
      :: parseCoordinates2D rest comf
  | _ => []

/-- The `parseCoordinates3D` of spatial.go (lines 134-166): repeated 12-byte
triples of signed 32-bit integers read as `(x, y, z)`; x and y scaled by
COMF, z scaled by SOMF, into `[lon, lat, depth]`. -/
def parseCoordinates3D (data : List Nat) (comf somf : Int) : List (List ℚ) :=
  match data with
  | x0 :: x1 :: x2 :: x3 :: y0 :: y1 :: y2 :: y3 :: z0 :: z1 :: z2 :: z3 :: rest =>
    [convertCoordinate (toInt32 (le32 x0 x1 x2 x3)) comf,
     convertCoordinate (toInt32 (le32 y0 y1 y2 y3)) comf,
     convertCoordinate (toInt32 (le32 z0 z1 z2 z3)) somf]
      :: parseCoordinates3D rest comf somf
  | _ => []

/-- A parsed S-57 spatial record (`spatialRecord` of spatial.go, whose
coordinates are variable-length `[lon, lat]` or `[lon, lat, depth]`). -/
structure spatialRecord where
  ID : Int
  RecordType : Nat
  Coordinates : List (List ℚ)
  VectorPointers : List vectorPointer
  RecordVersion : Nat
  UpdateInstr : Nat
deriving DecidableEq, Repr

/-- The `parseSpatialRecordInternal` of spatial.go (reached via
`parseSpatialRecordWithParams`): requires a VRID field of at least 8 bytes;
RCNM byte is taken as the record type unconditionally; SG3D coordinates
overwrite SG2D when both are present. -/
def parseSpatialRecordWithParams (record : Record) (comf somf : Int) :
    Option spatialRecord :=
  match getField record "VRID" with
  | none => none
  | some vridData =>
    if vridData.length < 8 then none
    else
      let coords2d :=
        match getField record "SG2D" with
        | some sg2d => parseCoordinates2D sg2d comf
        | none => []
      let coords :=
        match getField record "SG3D" with
        | some sg3d => parseCoordinates3D sg3d comf somf
        | none => coords2d
      let pointers :=
        match getField record "VRPT" with
        | some vrpt => parseVectorPointers vrpt
        | none => []
      some
        { ID := (le32 (vridData.getD 1 0) (vridData.getD 2 0)
            (vridData.getD 3 0) (vridData.getD 4 0) : Int)
          RecordType := vridData.getD 0 0
          Coordinates := coords
          VectorPointers := pointers
          RecordVersion := le16 (vridData.getD 5 0) (vridData.getD 6 0)
          UpdateInstr := vridData.getD 7 0 }

/-! ## Dataset parameters (internal/parser/dataset.go `parseDSPM`). -/

/-- Dataset-level parameters from the DSPM record (`datasetParams`). -/
structure datasetParams where
  COMF : Int
  SOMF : Int
  HDAT : Nat
  VDAT : Nat
  SDAT : Nat
  CSCL : Int
  COUN : Nat
deriving DecidableEq, Repr

/-- The `defaultDatasetParams` of dataset.go. -/
def defaultDatasetParams : datasetParams :=
  { COMF := 10000000, SOMF := 10, HDAT := 0, VDAT := 0, SDAT := 0,
    CSCL := 0, COUN := 0 }

/-- The `parseDSPM` of dataset.go: fixed offsets
`RCNM(1)=20 RCID(4) HDAT(1) VDAT(1) SDAT(1) CSCL(4) DUNI(1) HUNI(1) PUNI(1)
COUN(1) COMF(4) SOMF(4)`, 24 bytes minimum, with nonpositive COMF/SOMF
clamped to the defaults at the end. -/
def parseDSPM (data : List Nat) : datasetParams :=
  if data.length < 24 then defaultDatasetParams
  else if data.getD 0 0 ≠ 20 then defaultDatasetParams
  else
    let comf := toInt32 (le32 (data.getD 16 0) (data.getD 17 0)
      (data.getD 18 0) (data.getD 19 0))
    let somf := toInt32 (le32 (data.getD 20 0) (data.getD 21 0)
      (data.getD 22 0) (data.getD 23 0))
    { COMF := if comf ≤ 0 then 10000000 else comf
      SOMF := if somf ≤ 0 then 10 else somf
      HDAT := data.getD 5 0
      VDAT := data.getD 6 0
      SDAT := data.getD 7 0
      CSCL := toInt32 (le32 (data.getD 8 0) (data.getD 9 0)
        (data.getD 10 0) (data.getD 11 0))
      COUN := data.getD 15 0 }

/-! ## Dataset identification (parser.go `parseDSID` / `extractDSID`). -/

/-- Dataset identification and metadata from the DSID record
(`datasetMetadata`). -/
structure datasetMetadata where
  rcnm : Nat := 0
  rcid : Int := 0
  expp : Nat := 0
  intu : Nat := 0
  dsnm : String := ""
  edtn : String := ""
  updn : String := ""
  uadt : String := ""
  isdt : String := ""
  sted : String := ""
  prsp : Nat := 0
  psdn : String := ""
  pred : String := ""
  prof : Nat := 0
  agen : Nat := 0
  comt : String := ""
deriving DecidableEq, Repr

/-- One variable-length ASCII subfield: the bytes up to the 0x1F unit
separator, and the remainder with the separator consumed (the
`extractASCII` closure of `parseDSID`). -/
def extractASCII (bs : List Nat) : String × List Nat :=
  let s := bs.takeWhile (fun b => b ≠ 31)
  (bytesToString s, bs.drop (s.length + 1))

/-- The `parseDSID` of parser.go (lines 278-...): fixed binary header
`RCNM(1) RCID(4) EXPP(1) INTU(1)` (7 bytes minimum, otherwise an
all-default record is returned), then 0x1F-terminated ASCII DSNM, EDTN,
UPDN, fixed ASCII UADT(8), ISDT(8), STED(4) (trimmed of trailing NUL and
space), then PRSP(1), ASCII PSDN, PRED, PROF(1), AGEN(2), ASCII COMT.
Note: the RCNM byte is stored but never compared against 10. -/
def parseDSID (data : List Nat) : datasetMetadata :=
  if data.length < 7 then {}
  else
    let r0 := data.drop 7
    let p1 := extractASCII r0
    let p2 := extractASCII p1.2
    let p3 := extractASCII p2.2
    let r3 := p3.2
    let uadt := if r3.length ≥ 8 then bytesToString (trimRightNulSpace (r3.take 8)) else ""
    let r4 := if r3.length ≥ 8 then r3.drop 8 else r3
    let isdt := if r4.length ≥ 8 then bytesToString (trimRightNulSpace (r4.take 8)) else ""
    let r5 := if r4.length ≥ 8 then r4.drop 8 else r4
    let sted := if r5.length ≥ 4 then bytesToString (trimRightNulSpace (r5.take 4)) else ""
    let r6 := if r5.length ≥ 4 then r5.drop 4 else r5
    let prsp := if r6.length ≥ 1 then r6.getD 0 0 else 0
    let r7 := if r6.length ≥ 1 then r6.drop 1 else r6
    let p8 := extractASCII r7
    let p9 := extractASCII p8.2
    let r9 := p9.2
    let prof := if r9.length ≥ 1 then r9.getD 0 0 else 0
    let r10 := if r9.length ≥ 1 then r9.drop 1 else r9
    let agen := if r10.length ≥ 2 then le16 (r10.getD 0 0) (r10.getD 1 0) else 0
    let r11 := if r10.length ≥ 2 then r10.drop 2 else r10
    let p12 := extractASCII r11
    { rcnm := data.getD 0 0
      rcid := (le32 (data.getD 1 0) (data.getD 2 0) (data.getD 3 0) (data.getD 4 0) : Int)
      expp := data.getD 5 0
      intu := data.getD 6 0
      dsnm := p1.1, edtn := p2.1, updn := p3.1
      uadt := uadt, isdt := isdt, sted := sted
      prsp := prsp, psdn := p8.1, pred := p9.1
      prof := prof, agen := agen, comt := p12.1 }

/-- The `extractDSID` of parser.go (lines 249-257): the first record
presenting a DSID field is parsed as dataset metadata; there is no check on
the DSID contents (in particular none on the RCNM byte). -/
def extractDSID (records : List Record) : Option datasetMetadata :=
  match records with
  | [] => none
  | r :: rest =>
    match getField r "DSID" with
    | some dsidData => some (parseDSID dsidData)
    | none => extractDSID rest

/-! ## Update merger (internal/parser/updates.go).

The Go merger keeps `features` (a slice of pointers), `featuresByID` (a map
from composite key to pointer) and `spatialRecords` (a map from composite
key to record).  Pointer aliasing between the slice and the index is
observable (`*existing = *featureRec` rewrites the record seen through
both), so pointers are modelled as allocation tokens: `features` is a list
of token-record pairs and `featuresByID` maps keys to tokens. -/

/-- The composite feature key `(AGEN, FIDN, FIDS)` (`featureID`). -/
structure featureID where
  AGEN : Nat
  FIDN : Nat
  FIDS : Nat
deriving DecidableEq, Repr

/-- The composite spatial key `(RCNM, RCID)` (`spatialKey` of topology.go). -/
structure spatialKey where
  RCNM : Nat
  RCID : Int
deriving DecidableEq, Repr

/-- The intermediate chart state during update merging (`chartData`).
`nextId` is the allocation counter for fresh feature tokens. -/
structure chartData where
  features : List (Nat × featureRecord)
  featuresByID : List (featureID × Nat)
  nextId : Nat
  spatialRecords : List (spatialKey × spatialRecord)
  metadata : datasetMetadata
deriving Repr

/-- Index lookup `chart.featuresByID[key]` (the token the key maps to). -/
def lookupFeature (idx : List (featureID × Nat)) (k : featureID) : Option Nat :=
  (idx.find? (fun p => p.1 = k)).map (·.2)

/-- Writing through the pointer a key maps to (`*existing = *featureRec`):
every slice slot holding that token now shows the new record. -/
def replaceFeature (id : Nat) (rec : featureRecord)
    (fs : List (Nat × featureRecord)) : List (Nat × featureRecord) :=
  fs.map (fun p => if p.1 = id then (id, rec) else p)

/-- Removing the slice element holding a given pointer token (the
pointer-equality scan of the DELETE branch). -/
def eraseFeature (id : Nat) (fs : List (Nat × featureRecord)) :
    List (Nat × featureRecord) :=
  fs.eraseP (fun p => p.1 = id)

/-- Removing a key from the `featuresByID` map (`delete(chart.featuresByID, key)`). -/
def eraseFeatureKey (idx : List (featureID × Nat)) (k : featureID) :
    List (featureID × Nat) :=
  idx.eraseP (fun p => p.1 = k)

/-- Map lookup `chart.spatialRecords[key]`. -/
def lookupSpatialKey (m : List (spatialKey × spatialRecord)) (k : spatialKey) :
    Option spatialRecord :=
  (m.find? (fun p => p.1 = k)).map (·.2)

/-- Map assignment `chart.spatialRecords[key] = rec` (replace or append). -/
def setSpatialKey (m : List (spatialKey × spatialRecord)) (k : spatialKey)
    (v : spatialRecord) : List (spatialKey × spatialRecord) :=
  if (m.find? (fun p => p.1 = k)).isSome then
    m.map (fun p => if p.1 = k then (k, v) else p)
  else m ++ [(k, v)]

/-- Map deletion `delete(chart.spatialRecords, key)`. -/
def eraseSpatialKey (m : List (spatialKey × spatialRecord)) (k : spatialKey) :
    List (spatialKey × spatialRecord) :=
  m.eraseP (fun p => p.1 = k)

/-- The RUIN switch of `applyFeatureUpdate` (updates.go lines 161-212),
acting on the already-parsed feature record.  The key is the composite
`(AGEN, FIDN, FIDS)`; INSERT is an upsert, DELETE of an absent key is a
no-op, MODIFY of an absent key fails naming the key. -/
def applyFeatureUpdateCore (chart : chartData) (ruin : Nat)
    (featureRec : featureRecord) : Except String chartData :=
  let key : featureID :=
    { AGEN := featureRec.AGEN, FIDN := featureRec.FIDN, FIDS := featureRec.FIDS }
  if ruin = 1 then
    match lookupFeature chart.featuresByID key with
    | some id =>
      .ok { chart with features := replaceFeature id featureRec chart.features }
    | none =>
      .ok { chart with
        features := chart.features ++ [(chart.nextId, featureRec)]
        featuresByID := chart.featuresByID ++ [(key, chart.nextId)]
        nextId := chart.nextId + 1 }
  else if ruin = 2 then
    match lookupFeature chart.featuresByID key with
    | none => .ok chart
    | some id =>
      .ok { chart with
        featuresByID := eraseFeatureKey chart.featuresByID key
        features := eraseFeature id chart.features }
  else if ruin = 3 then
    match lookupFeature chart.featuresByID key with
    | none =>
      .error ("MODIFY: feature (AGEN=" ++ toString featureRec.AGEN ++
        ", FIDN=" ++ toString featureRec.FIDN ++
        ", FIDS=" ++ toString featureRec.FIDS ++ ") not found")
    | some id =>
      .ok { chart with features := replaceFeature id featureRec chart.features }
  else
    .error ("unknown RUIN value for feature: " ++ toString ruin)

/-- The `applyFeatureUpdate` of updates.go: RUIN is byte 11 of FRID, the
record is parsed with `parseFeatureRecord`, then the RUIN switch runs. -/
def applyFeatureUpdate (chart : chartData) (record : Record)
    (fridData : List Nat) : Except String chartData :=
  match parseFeatureRecord record with
  | none => .error "failed to parse feature record"
  | some featureRec => applyFeatureUpdateCore chart (fridData.getD 11 0) featureRec

/-- The RUIN switch of `applySpatialUpdate` (updates.go lines 231-255),
acting on the already-parsed spatial record, keyed by `(RCNM, RCID)`. -/
def applySpatialUpdateCore (chart : chartData) (ruin : Nat)
    (spatialRec : spatialRecord) : Except String chartData :=
  let key : spatialKey := { RCNM := spatialRec.RecordType, RCID := spatialRec.ID }
  if ruin = 1 then
    .ok { chart with spatialRecords := setSpatialKey chart.spatialRecords key spatialRec }
  else if ruin = 2 then
    match lookupSpatialKey chart.spatialRecords key with
    | none => .ok chart
    | some _ =>
      .ok { chart with spatialRecords := eraseSpatialKey chart.spatialRecords key }
  else if ruin = 3 then
    match lookupSpatialKey chart.spatialRecords key with
    | none =>
      .error ("MODIFY: spatial record (RCNM=" ++ toString spatialRec.RecordType ++
        ", RCID=" ++ toString spatialRec.ID ++ ") not found")
    | some _ =>
      .ok { chart with spatialRecords := setSpatialKey chart.spatialRecords key spatialRec }
  else
    .error ("unknown RUIN value for spatial: " ++ toString ruin)

/-- The `applySpatialUpdate` of updates.go: RUIN is byte 7 of VRID. -/
def applySpatialUpdate (chart : chartData) (record : Record)
    (vridData : List Nat) (params : datasetParams) : Except String chartData :=
  match parseSpatialRecordWithParams record params.COMF params.SOMF with
  | none => .error "failed to parse spatial record"
  | some spatialRec => applySpatialUpdateCore chart (vridData.getD 7 0) spatialRec

/-- The VRID arm of the per-record dispatch of `applyUpdate`: records with
a VRID field of at least 8 bytes go through the spatial update, anything
else is skipped. -/
def applySpatialStep (chart : chartData) (record : Record)
    (params : datasetParams) : Except String chartData :=
  match getField record "VRID" with
  | some vridData =>
    if vridData.length ≥ 8 then applySpatialUpdate chart record vridData params
    else .ok chart
  | none => .ok chart

/-- The body of the record loop of `applyUpdate` (updates.go lines
106-122) for one record: records with an FRID field of at least 12 bytes
are feature updates, otherwise records with a VRID field of at least 8
bytes are spatial updates, and anything else is skipped. -/
def applyRecordStep (chart : chartData) (record : Record)
    (params : datasetParams) : Except String chartData :=
  match getField record "FRID" with
  | some fridData =>
    if fridData.length ≥ 12 then applyFeatureUpdate chart record fridData
    else applySpatialStep chart record params
  | none => applySpatialStep chart record params

/-- The record loop of `applyUpdate`: fold the per-record step over the
update file's records; any error aborts the loop. -/
def applyUpdateRecords (params : datasetParams) (chart : chartData) :
    List Record → Except String chartData
  | [] => .ok chart
  | record :: rest =>
    match applyRecordStep chart record params with
    | .error e => .error e
    | .ok chart' => applyUpdateRecords params chart' rest

/-- The `applyUpdate` of updates.go (lines 92-142) applied to the decoded
records of one update file: run the record loop, then, when the file
carries a DSID, merge its nonempty UPDN, UADT and ISDT into the chart
metadata (and nothing else). -/
def applyUpdate (chart : chartData) (records : List Record)
    (params : datasetParams) : Except String chartData :=
  match applyUpdateRecords params chart records with
  | .error e => .error e
  | .ok chart1 =>
    match extractDSID records with
    | none => .ok chart1
    | some updatedDSID =>
      .ok { chart1 with metadata :=
        { chart1.metadata with
          updn := if updatedDSID.updn ≠ "" then updatedDSID.updn else chart1.metadata.updn
          uadt := if updatedDSID.uadt ≠ "" then updatedDSID.uadt else chart1.metadata.uadt
          isdt := if updatedDSID.isdt ≠ "" then updatedDSID.isdt else chart1.metadata.isdt } }

/-- The `findUpdateFiles` of updates.go (lines 31-57): probe suffixes
`.001` through `.999` in order and stop at the first missing one.  The
file system is abstracted to the existence predicate `present` (the
`os.Stat` success of the suffix); the loop is exactly a `takeWhile` over
the candidate suffixes 1..999. -/
def findUpdateFiles (present : Nat → Bool) : List Nat :=
  (List.range' 1 999).takeWhile present

/-! ## Topology resolution (internal/parser/topology.go).

The topology resolver views coordinates as 2-component points
(`[2]float64`); a spatial record's variable-length coordinates are
projected to their first two components, as in the repository's
type-correct copy of `loadEdge` / `getFullEdgeCoordinates`.  The edge
cache is pure memoization over the immutable record map and is dropped
from the model. -/

/-- A 2-component coordinate `[2]float64` as `(lon, lat)`. -/
abbrev Point2 := ℚ × ℚ

/-- Projection of a variable-length coordinate to its two components. -/
def coordPair (c : List ℚ) : Point2 := (c.getD 0 0, c.getD 1 0)

/-- One arm of `getNode`: a record of the given RCNM class with a nonempty
coordinate list. -/
def getNodeOfType (recs : List (spatialKey × spatialRecord)) (rcnm : Nat)
    (nodeID : Int) : Option spatialRecord :=
  match lookupSpatialKey recs { RCNM := rcnm, RCID := nodeID } with
  | some node => if node.Coordinates.length > 0 then some node else none
  | none => none

/-- The `getNode` of topology.go (lines 44-56): try the connected-node
class (120) first, then the isolated-node class (110). -/
def getNode (recs : List (spatialKey × spatialRecord)) (nodeID : Int) :
    Option spatialRecord :=
  match getNodeOfType recs 120 nodeID with
  | some node => some node
  | none => getNodeOfType recs 110 nodeID

/-- A spatial edge record with connectivity (`edge` of topology.go). -/
structure edge where
  ID : Int
  Points : List Point2
  StartNodeID : Int
  EndNodeID : Int
deriving DecidableEq, Repr

/-- The `getFullEdgeCoordinates` of topology.go (lines 60-90): start-node
coordinate (when the node id is nonzero and resolves to a node with
coordinates), then the SG2D shape points, then the end-node coordinate;
the whole list is reversed exactly when the orientation is 2. -/
def getFullEdgeCoordinates (recs : List (spatialKey × spatialRecord))
    (e : edge) (orientation : Nat) : List Point2 :=
  let c1 : List Point2 :=
    if e.StartNodeID ≠ 0 then
      match getNode recs e.StartNodeID with
      | some node =>
        match node.Coordinates with
        | c :: _ => if c.length ≥ 2 then [coordPair c] else []
        | [] => []
      | none => []
    else []
  let c2 : List Point2 :=
    if e.EndNodeID ≠ 0 then
      match getNode recs e.EndNodeID with
      | some node =>
        match node.Coordinates with
        | c :: _ => if c.length ≥ 2 then [coordPair c] else []
        | [] => []
      | none => []
    else []
  let coords := c1 ++ e.Points ++ c2
  if orientation = 2 then coords.reverse else coords

/-- The `loadEdge` of topology.go (lines 94-158), without the cache: look
the edge up under `(130, edgeID)`, check its record type, take the first
two node-typed VRPT targets as begin and end node, and keep the SG2D shape
points. -/
def loadEdge (recs : List (spatialKey × spatialRecord)) (edgeID : Int) :
    Except String edge :=
  match lookupSpatialKey recs { RCNM := 130, RCID := edgeID } with
  | none => .error ("missing spatial record " ++ toString edgeID)
  | some spatial =>
    if spatial.RecordType ≠ 130 then
      .error "expected edge record (RCNM=130)"
    else
      let se := spatial.VectorPointers.foldl (fun (p : Int × Int) ptr =>
        if ptr.TargetRCNM = 110 ∨ ptr.TargetRCNM = 120 then
          if p.1 = 0 then (ptr.TargetRCID, p.2)
          else if p.2 = 0 then (p.1, ptr.TargetRCID)
          else p
        else p) (0, 0)
      .ok { ID := edgeID
            Points := (spatial.Coordinates.filter (fun c => c.length ≥ 2)).map coordPair
            StartNodeID := se.1, EndNodeID := se.2 }

/-- The `isRingClosed` of topology.go: at least 3 points and equal first
and last coordinates (exact equality on both components). -/
def isRingClosed (ring : List Point2) : Bool :=
  if ring.length < 3 then false
  else
    match ring.head?, ring.getLast? with
    | some f, some l => decide (f = l)
    | _, _ => false

/-- The edge loop of `buildRingsWithOrientation` (topology.go lines
192-218): iterate the edge references in order; skip edges that fail to
load; append each edge's oriented full coordinates, dropping the first new
coordinate exactly when the ring in progress is nonempty, the new edge
coordinates are nonempty, and the ring's last coordinate equals the new
first coordinate. -/
def ringLoop (recs : List (spatialKey × spatialRecord)) :
    List spatialRef → List Point2 → List Point2
  | [], coords => coords
  | edgeRef :: rest, coords =>
    match loadEdge recs edgeRef.RCID with
    | .error _ => ringLoop recs rest coords
    | .ok e =>
      let ec := getFullEdgeCoordinates recs e edgeRef.Orientation
      let ec' :=
        if coords.length > 0 ∧ ec.length > 0 ∧ coords.getLast? = ec.head? then
          ec.tail
        else ec
      ringLoop recs rest (coords ++ ec')

/-- The `buildRingsWithOrientation` of topology.go (lines 188-232): run the
edge loop, append the first coordinate when the resulting ring is nonempty
and not closed, and fail only when no coordinates were collected.  (The
`orientations` map parameter of the Go function is unused by its body and
is dropped; the debug print is side-effect only.) -/
def buildRingsWithOrientation (recs : List (spatialKey × spatialRecord))
    (edgeRefs : List spatialRef) : Except String (List (List Point2)) :=
  let coords := ringLoop recs edgeRefs []
  let coords2 :=
    if coords.length > 0 ∧ ¬(isRingClosed coords = true) then
      coords ++ coords.take 1
    else coords
  if coords2.length = 0 then .error "no coordinates collected from edges"
  else .ok [coords2]

/-! ## Geometry validation (internal/parser/validation.go). -/

/-- Geometry type tags (`GeometryType` of feature.go). -/
inductive GeometryPrim where
  | Point
  | LineString
  | Polygon
deriving DecidableEq, Repr

/-- A feature geometry (`Geometry`): a type tag and `[lon, lat(, depth)]`
coordinates.  The Go field `Type` is rendered as `gtype`. -/
structure Geometry where
  gtype : GeometryPrim
  Coordinates : List (List ℚ)
deriving DecidableEq, Repr

/-- The `ValidateCoordinate` of validation.go: latitude within [-90, 90]
and longitude within [-180, 180]. -/
def ValidateCoordinate (lat lon : ℚ) : Except String Unit :=
  if lat < -90 ∨ lat > 90 then
    .error ("invalid coordinate: lat " ++ toString lat ++ " lon " ++ toString lon)
  else if lon < -180 ∨ lon > 180 then
    .error ("invalid coordinate: lat " ++ toString lat ++ " lon " ++ toString lon)
  else .ok ()

/-- The per-coordinate loop at the end of `ValidateGeometry`: each
coordinate must have 2 or 3 components and a valid (lat, lon); depth is
not validated. -/
def validateAllCoords (i : Nat) : List (List ℚ) → Except String Unit
  | [] => .ok ()
  | c :: rest =>
    if c.length < 2 ∨ c.length > 3 then
      .error ("coordinate " ++ toString i ++ " must have 2 or 3 values")
    else
      match ValidateCoordinate (c.getD 1 0) (c.getD 0 0) with
      | .error e => .error ("coordinate " ++ toString i ++ " invalid: " ++ e)
      | .ok _ => validateAllCoords (i + 1) rest

/-- The closure tolerance `epsilon = 1e-9` of `ValidateGeometry`. -/
def epsilon : ℚ := 1 / 1000000000

/-- The `ValidateGeometry` of validation.go (lines 21-104): empty
geometries are valid; the type switch checks minimum coordinate counts
and, for polygons, that the first and last coordinates have exactly 2
components and lie within squared distance `epsilon²` of each other; then
every coordinate is range-checked. -/
def ValidateGeometry (g : Geometry) : Except String Unit :=
  if g.Coordinates.length = 0 then .ok ()
  else
    let typeCheck : Except String Unit :=
      match g.gtype with
      | .Point =>
        if g.Coordinates.length < 1 then
          .error "point must have at least 1 coordinate"
        else .ok ()
      | .LineString =>
        if g.Coordinates.length < 2 then
          .error "linestring must have at least 2 coordinates"
        else .ok ()
      | .Polygon =>
        if g.Coordinates.length < 3 then
          .error "polygon must have at least 3 coordinates"
        else
          let first := g.Coordinates.getD 0 []
          let last := (g.Coordinates.getLast?).getD []
          if first.length ≠ 2 ∨ last.length ≠ 2 then
            .error "coordinate pairs must have exactly 2 values [lon, lat]"
          else
            let dlat := first.getD 1 0 - last.getD 1 0
            let dlon := first.getD 0 0 - last.getD 0 0
            if dlat * dlat + dlon * dlon > epsilon * epsilon then
              .error "polygon is not closed"
            else .ok ()
    match typeCheck with
    | .error e => .error e
    | .ok _ => validateAllCoords 0 g.Coordinates

/-! ## Indirect VRPT coordinate walk (internal/parser/geometry.go
`resolveVectorPointersRecursive`).

The Go function mutates a shared `visited` map while recursing; the model
threads the visited list (newly visited targets are prepended) and adds a
fuel parameter: `none` means the fuel ran out, and the termination theorem
shows that enough fuel (one more than the number of record RCIDs not yet
visited) never runs out, which is exactly the termination of the Go
recursion. -/

/-- The fueled walk over a pointer list: skip already-visited targets, mark
a target visited before resolving it, take a found target's direct
coordinates or recurse into its own pointers, and append in orientation
order. -/
def resolveVectorPointersRecursive (recs : List (spatialKey × spatialRecord)) :
    Nat → List vectorPointer → List Int → Option (List (List ℚ) × List Int)
  | 0, _, _ => none
  | _ + 1, [], visited => some ([], visited)
  | fuel + 1, ptr :: rest, visited =>
    if ptr.TargetRCID ∈ visited then
      resolveVectorPointersRecursive recs (fuel + 1) rest visited
    else
      let visited1 := ptr.TargetRCID :: visited
      match lookupSpatialKey recs { RCNM := ptr.TargetRCNM, RCID := ptr.TargetRCID } with
      | none => resolveVectorPointersRecursive recs (fuel + 1) rest visited1
      | some target =>
        let inner : Option (List (List ℚ) × List Int) :=
          if target.Coordinates.length > 0 then
            some (target.Coordinates.map (fun c => [c.getD 0 0, c.getD 1 0]), visited1)
          else if target.VectorPointers.length > 0 then
            resolveVectorPointersRecursive recs fuel target.VectorPointers visited1
          else some ([], visited1)
        match inner with
        | none => none
        | some (tc, visited2) =>
          let oriented := if ptr.Orientation = 2 then tc.reverse else tc
          match resolveVectorPointersRecursive recs (fuel + 1) rest visited2 with
          | none => none
          | some (more, visited3) => some (oriented ++ more, visited3)
termination_by fuel ptrs _ => (fuel, ptrs.length)

/-- The set of RCIDs keying the spatial-record map. -/
def rcidFinset (recs : List (spatialKey × spatialRecord)) : Finset Int :=
  (recs.map (fun p => p.1.RCID)).toFinset

/-- How many record RCIDs are not yet visited: the strictly decreasing
measure of the walk. -/
def unvisitedCount (recs : List (spatialKey × spatialRecord))
    (visited : List Int) : Nat :=
  ((rcidFinset recs).filter (fun a => a ∉ visited)).card

/-- The `resolveVectorPointers` entry point of geometry.go: start the walk
with an empty visited set, with enough fuel that it cannot run out. -/
def resolveVectorPointers (spatial : spatialRecord)
    (recs : List (spatialKey × spatialRecord)) : Option (List (List ℚ)) :=
  (resolveVectorPointersRecursive recs (unvisitedCount recs [] + 1)
    spatial.VectorPointers []).map (·.1)

/-- Endpoint resolution as the spec describes it: the first coordinate of
the node the endpoint id resolves to, absent when the id is zero or no
node with coordinates is found (used to compare `getFullEdgeCoordinates`
against the specified `[B, s₁ … sₙ, E]` shape). -/
def specEndpointCoord (recs : List (spatialKey × spatialRecord)) (id : Int) :
    Option Point2 :=
  if id = 0 then none
  else
    match getNode recs id with
    | some node =>
      match node.Coordinates with
      | c :: _ => if c.length ≥ 2 then some (coordPair c) else none
      | [] => none
    | none => none

/-! ## Concrete fixtures used by individual claim theorems and witnesses. -/

/-- Triangle fixture: connected nodes 11, 12, 13 at (0,0), (1,0), (0,1) and
forward edges 1: 11→12, 2: 12→13, 3: 13→11, each with no intermediate
shape points. -/
def triRecs : List (spatialKey × spatialRecord) :=
  [ ({ RCNM := 120, RCID := 11 },
     { ID := 11, RecordType := 120, Coordinates := [[0, 0]],
       VectorPointers := [], RecordVersion := 1, UpdateInstr := 1 }),
    ({ RCNM := 120, RCID := 12 },
     { ID := 12, RecordType := 120, Coordinates := [[1, 0]],
       VectorPointers := [], RecordVersion := 1, UpdateInstr := 1 }),
    ({ RCNM := 120, RCID := 13 },
     { ID := 13, RecordType := 120, Coordinates := [[0, 1]],
       VectorPointers := [], RecordVersion := 1, UpdateInstr := 1 }),
    ({ RCNM := 130, RCID := 1 },
     { ID := 1, RecordType := 130, Coordinates := [],
       VectorPointers :=
         [ { TargetRCNM := 120, TargetRCID := 11, Orientation := 255,
             Usage := 255, Topology := 1, Mask := 255 },
           { TargetRCNM := 120, TargetRCID := 12, Orientation := 255,
             Usage := 255, Topology := 2, Mask := 255 } ],
       RecordVersion := 1, UpdateInstr := 1 }),
    ({ RCNM := 130, RCID := 2 },
     { ID := 2, RecordType := 130, Coordinates := [],
       VectorPointers :=
         [ { TargetRCNM := 120, TargetRCID := 12, Orientation := 255,
             Usage := 255, Topology := 1, Mask := 255 },
           { TargetRCNM := 120, TargetRCID := 13, Orientation := 255,
             Usage := 255, Topology := 2, Mask := 255 } ],
       RecordVersion := 1, UpdateInstr := 1 }),
    ({ RCNM := 130, RCID := 3 },
     { ID := 3, RecordType := 130, Coordinates := [],
       VectorPointers :=
         [ { TargetRCNM := 120, TargetRCID := 13, Orientation := 255,
             Usage := 255, Topology := 1, Mask := 255 },
           { TargetRCNM := 120, TargetRCID := 11, Orientation := 255,
             Usage := 255, Topology := 2, Mask := 255 } ],
       RecordVersion := 1, UpdateInstr := 1 }) ]

/-- The three forward-oriented references to the triangle's edges. -/
def triRefs : List spatialRef :=
  [ { RCID := 1, Orientation := 1, Usage := 1, Mask := 2 },
    { RCID := 2, Orientation := 1, Usage := 1, Mask := 2 },
    { RCID := 3, Orientation := 1, Usage := 1, Mask := 2 } ]

/-- A concrete feature record with composite key (540, 1, 0). -/
def demoFeature : featureRecord :=
  { ID := 1, AGEN := 540, FIDN := 1, FIDS := 0, ObjectClass := 42,
    GeomPrim := 1, Group := 1, RecordVersion := 1, UpdateInstr := 3,
    Attributes := [], SpatialRefs := [] }

/-- An empty chart state with default metadata. -/
def emptyChart : chartData :=
  { features := [], featuresByID := [], nextId := 0, spatialRecords := [],
    metadata := {} }

/-- A chart state holding only `demoFeature` under token 0. -/
def demoChart : chartData :=
  { features := [(0, demoFeature)],
    featuresByID := [({ AGEN := 540, FIDN := 1, FIDS := 0 }, 0)],
    nextId := 1, spatialRecords := [], metadata := {} }

/-- A one-record update file carrying only a DSID whose UPDN is "1"
(bytes: RCNM=10, RCID, EXPP=1, INTU=1, DSNM "A", EDTN "2", UPDN "1"). -/
def demoUpdateRecords : List Record :=
  [[("DSID", [10, 0, 0, 0, 0, 1, 1, 65, 31, 50, 31, 49, 31])]]

/-- A spatial-record map with a single record (RCNM 130, RCID 7) whose only
VRPT pointer targets the record itself: a one-node cycle. -/
def cyclicRecs : List (spatialKey × spatialRecord) :=
  [ ({ RCNM := 130, RCID := 7 },
     { ID := 7, RecordType := 130, Coordinates := [],
       VectorPointers :=
         [ { TargetRCNM := 130, TargetRCID := 7, Orientation := 1,
             Usage := 1, Topology := 255, Mask := 255 } ],
       RecordVersion := 1, UpdateInstr := 1 }) ]

/-- The self-referencing record of `cyclicRecs`. -/
def cyclicNode : spatialRecord :=
  { ID := 7, RecordType := 130, Coordinates := [],
    VectorPointers :=
      [ { TargetRCNM := 130, TargetRCID := 7, Orientation := 1,
          Usage := 1, Topology := 255, Mask := 255 } ],
    RecordVersion := 1, UpdateInstr := 1 }

end S57

namespace S57

/-! ## Helper lemmas. -/

/-- Characterization of `takeWhile` on an arithmetic range: the result is
the maximal all-true prefix. -/
theorem takeWhile_range'_eq (p : Nat → Bool) (a len : Nat) :
    ∃ k, k ≤ len ∧ (List.range' a len).takeWhile p = List.range' a k ∧
      (∀ i, i < k → p (a + i) = true) ∧ (k < len → p (a + k) = false) := by
  induction len generalizing a with
  | zero =>
    exact ⟨0, le_refl 0, by simp, fun i hi => absurd hi (Nat.not_lt_zero i),
      fun h => absurd h (Nat.not_lt_zero 0)⟩
  | succ n ih =>
    rw [List.range'_succ]
    by_cases hp : p a = true
    · obtain ⟨k, hk, heq, hall, hmax⟩ := ih (a + 1)
      refine ⟨k + 1, by omega, ?_, ?_, ?_⟩
      · rw [List.takeWhile_cons, hp, heq, List.range'_succ]
        simp
      · intro i hi
        match i with
        | 0 => simpa using hp
        | j + 1 =>
          have := hall j (by omega)
          have harith : a + 1 + j = a + (j + 1) := by omega
          rwa [harith] at this
      · intro h
        have := hmax (by omega)
        have harith : a + 1 + k = a + (k + 1) := by omega
        rwa [harith] at this
    · refine ⟨0, by omega, ?_, fun i hi => absurd hi (Nat.not_lt_zero i), ?_⟩
      · rw [List.takeWhile_cons]
        simp [hp]
      · intro _
        simpa using hp

/-- C2: for every base cell and every set of sibling files, update
discovery returns exactly the maximal contiguous ascending sequence of
suffixes 1, 2, … (capped at 999, the largest 3-digit suffix), stopping at
the first missing suffix: a suffix is applied iff it and all its
predecessors exist; in particular, when .001 and .002 exist but .003 does
not, the result is exactly [1, 2] even though .004 and every later suffix
exists. -/
theorem C2_update_discovery :
    (∀ present : Nat → Bool,
      ∃ k, k ≤ 999 ∧ findUpdateFiles present = List.range' 1 k ∧
        (∀ i, 1 ≤ i → i ≤ k → present i = true) ∧
        (k < 999 → present (k + 1) = false)) ∧
    (∀ (present : Nat → Bool) (n : Nat),
      n ∈ findUpdateFiles present ↔
        1 ≤ n ∧ n ≤ 999 ∧ ∀ i, 1 ≤ i → i ≤ n → present i = true) ∧
    findUpdateFiles (fun n => decide (n = 1 ∨ n = 2 ∨ 4 ≤ n)) = [1, 2] := by
  have key : ∀ present : Nat → Bool,
      ∃ k, k ≤ 999 ∧ findUpdateFiles present = List.range' 1 k ∧
        (∀ i, 1 ≤ i → i ≤ k → present i = true) ∧
        (k < 999 → present (k + 1) = false) := by
    intro present
    obtain ⟨k, hk, heq, hall, hmax⟩ := takeWhile_range'_eq present 1 999
    refine ⟨k, hk, heq, ?_, ?_⟩
    · intro i h1 h2
      have := hall (i - 1) (by omega)
      have harith : 1 + (i - 1) = i := by omega
      rwa [harith] at this
    · intro h
      have := hmax h
      have harith : 1 + k = k + 1 := by omega
      rwa [harith] at this
  refine ⟨key, ?_, ?_⟩
  · intro present n
    obtain ⟨k, hk, heq, hall, hmax⟩ := key present
    rw [heq]
    constructor
    · intro hn
      rw [List.mem_range'_1] at hn
      exact ⟨hn.1, by omega, fun i h1 h2 => hall i h1 (by omega)⟩
    · rintro ⟨h1, h2, hpres⟩
      rw [List.mem_range'_1]
      refine ⟨h1, ?_⟩
      by_contra hcon
      have hkn : k < n := by omega
      have hfalse := hmax (by omega)
      have htrue := hpres (k + 1) (by omega) (by omega)
      rw [htrue] at hfalse
      exact absurd hfalse (by simp)
  · decide

/-- C2 witness: the membership characterization applied to the concrete
sibling set {1, 2, 4, 5, …}. -/
theorem C2_update_discovery_witness :
    3 ∈ findUpdateFiles (fun n => decide (n = 1 ∨ n = 2 ∨ 4 ≤ n)) ↔
      1 ≤ 3 ∧ 3 ≤ 999 ∧
        ∀ i, 1 ≤ i → i ≤ 3 → (fun n => decide (n = 1 ∨ n = 2 ∨ 4 ≤ n)) i = true :=
  C2_update_discovery.2.1 (fun n => decide (n = 1 ∨ n = 2 ∨ 4 ≤ n)) 3

/-- The endpoint contribution inside `getFullEdgeCoordinates` equals the
option-list of the resolved endpoint coordinate. -/
theorem endpoint_contrib_eq (recs : List (spatialKey × spatialRecord)) (id : Int) :
    (if id ≠ 0 then
      match getNode recs id with
      | some node =>
        match node.Coordinates with
        | c :: _ => if c.length ≥ 2 then [coordPair c] else []
        | [] => []
      | none => []
     else []) = (specEndpointCoord recs id).toList := by
  unfold specEndpointCoord
  by_cases h : id = 0
  · simp [h]
  · simp only [h, if_neg, ne_eq, not_false_eq_true, if_true, if_false]
    cases hg : getNode recs id with
    | none => simp
    | some node =>
      cases hc : node.Coordinates with
      | nil => simp [hc]
      | cons c cs =>
        by_cases hl : c.length ≥ 2
        · simp [hc, hl]
        · simp [hc, hl]

/-- C4: for every edge, the forward (orientation 1) full coordinate
sequence is begin-node coordinate (omitted when unresolvable), then the
SG2D shape points, then the end-node coordinate (omitted when
unresolvable); the reverse (orientation 2) sequence is exactly that list
reversed.  The function is total: an unresolvable endpoint yields no
error, only omission. -/
theorem C4_full_edge_coordinates :
    ∀ (recs : List (spatialKey × spatialRecord)) (e : edge),
      getFullEdgeCoordinates recs e 1 =
        (specEndpointCoord recs e.StartNodeID).toList ++ e.Points ++
          (specEndpointCoord recs e.EndNodeID).toList ∧
      getFullEdgeCoordinates recs e 2 =
        ((specEndpointCoord recs e.StartNodeID).toList ++ e.Points ++
          (specEndpointCoord recs e.EndNodeID).toList).reverse := by
  intro recs e
  have hbody : ∀ orientation,
      getFullEdgeCoordinates recs e orientation =
        (if orientation = 2 then
          ((specEndpointCoord recs e.StartNodeID).toList ++ e.Points ++
            (specEndpointCoord recs e.EndNodeID).toList).reverse
         else
          (specEndpointCoord recs e.StartNodeID).toList ++ e.Points ++
            (specEndpointCoord recs e.EndNodeID).toList) := by
    intro orientation
    unfold getFullEdgeCoordinates
    rw [endpoint_contrib_eq recs e.StartNodeID, endpoint_contrib_eq recs e.EndNodeID]
  refine ⟨?_, ?_⟩
  · rw [hbody 1]
    simp
  · rw [hbody 2]
    simp

/-- C5: every 12-byte SG3D triple decodes to
`(x / COMF, y / COMF, z / SOMF)` with 10⁷ substituted for COMF when
COMF ≤ 0 at the point of use; the SOMF reaching the decoder is positive for
every DSPM input (parseDSPM clamps nonpositive factors to the defaults);
and the concrete triple (-710000000, 420000000, 100) with COMF = 10⁷,
SOMF = 10 decodes to (-71.0, 42.0, 10.0). -/
theorem C5_sg3d_transform :
    (∀ b0 b1 b2 b3 b4 b5 b6 b7 b8 b9 b10 b11 : Nat, ∀ comf somf : Int,
      0 < somf →
      parseCoordinates3D [b0, b1, b2, b3, b4, b5, b6, b7, b8, b9, b10, b11] comf somf =
        [[((toInt32 (le32 b0 b1 b2 b3) : ℚ)) /
            (if comf ≤ 0 then (10000000 : ℚ) else (comf : ℚ)),
          ((toInt32 (le32 b4 b5 b6 b7) : ℚ)) /
            (if comf ≤ 0 then (10000000 : ℚ) else (comf : ℚ)),
          ((toInt32 (le32 b8 b9 b10 b11) : ℚ)) / (somf : ℚ)]]) ∧
    (∀ dspmData : List Nat,
      0 < (parseDSPM dspmData).COMF ∧ 0 < (parseDSPM dspmData).SOMF) ∧
    parseCoordinates3D [128, 66, 174, 213, 0, 177, 8, 25, 100, 0, 0, 0]
        10000000 10 = [[(-71 : ℚ), 42, 10]] := by
  refine ⟨?_, ?_, ?_⟩
  · intro b0 b1 b2 b3 b4 b5 b6 b7 b8 b9 b10 b11 comf somf hsomf
    have hns : ¬(somf ≤ 0) := by omega
    simp only [parseCoordinates3D, convertCoordinate, hns, if_false]
    by_cases hc : comf ≤ 0
    · simp [hc]
    · simp [hc]
  · intro dspmData
    unfold parseDSPM
    split
    · constructor <;> simp [defaultDatasetParams]
    · split
      · constructor <;> simp [defaultDatasetParams]
      · constructor
        · dsimp only
          split
          · norm_num
          · omega
        · dsimp only
          split
          · norm_num
          · omega
  · simp only [parseCoordinates3D, convertCoordinate, toInt32, le32]
    norm_num

/-- C5 witness: the general SG3D shape applied to the concrete sounding
bytes with COMF = 10⁷ and SOMF = 10. -/
theorem C5_sg3d_transform_witness :
    (0 : Int) < 10 ∧
    parseCoordinates3D [128, 66, 174, 213, 0, 177, 8, 25, 100, 0, 0, 0]
        10000000 10 =
      [[((toInt32 (le32 128 66 174 213) : ℚ)) /
          (if (10000000 : Int) ≤ 0 then (10000000 : ℚ) else ((10000000 : Int) : ℚ)),
        ((toInt32 (le32 0 177 8 25) : ℚ)) /
          (if (10000000 : Int) ≤ 0 then (10000000 : ℚ) else ((10000000 : Int) : ℚ)),
        ((toInt32 (le32 100 0 0 0) : ℚ)) / ((10 : Int) : ℚ)]] :=
  ⟨by norm_num,
   C5_sg3d_transform.1 128 66 174 213 0 177 8 25 100 0 0 0 10000000 10 (by norm_num)⟩

/-- C7: evaluation of the cited `parseAttributes` at the failing input.
The ATTF bytes `[87, 0, 49, 48]` encode attribute code 87 (the catalogued
acronym DRVAL1) with value "10"; `parseAttributes` of
internal/parser/feature.go nevertheless stores the key as the literal
`ATTR_87` and never consults the catalogue, while the claimed key (the
`AttributeCodeToString` lookup of catalog.go) is the acronym `DRVAL1`. -/
theorem C7_attribute_key_ignores_catalogue :
    parseAttributes [87, 0, 49, 48] = [("ATTR_87", "10")] ∧
    claimedAttributeKey [(87, "DRVAL1")] 87 = "DRVAL1" ∧
    ("ATTR_87" : String) ≠ "DRVAL1" ∧
    (∀ catalogue : AttrCatalogue,
      parseAttributes [87, 0, 49, 48] = [("ATTR_87", "10")]) := by
  have h : parseAttributes [87, 0, 49, 48] = [("ATTR_87", "10")] := by
    simp [parseAttributes, le16, bytesToString, List.takeWhile]
    decide
  exact ⟨h, by decide, by decide, fun _ => h⟩

/-- C8 counterexample: a record presenting a DSID field whose first byte is
99 (not 10) still produces dataset metadata — `extractDSID` returns a
decoded record (here with DSNM "GB") without ever checking the RCNM byte,
refuting the claim that only RCNM = 10 records are decoded as DSID. -/
theorem C8_dsid_counterexample :
    (extractDSID [[("DSID", [99, 0, 0, 0, 0, 1, 1, 71, 66, 31])]]).isSome = true ∧
    (extractDSID [[("DSID", [99, 0, 0, 0, 0, 1, 1, 71, 66, 31])]]).map (·.dsnm) =
      some "GB" ∧
    (extractDSID [[("DSID", [99, 0, 0, 0, 0, 1, 1, 71, 66, 31])]]).map (·.rcnm) =
      some 99 ∧
    (99 : Nat) ≠ 10 := by
  refine ⟨?_, ?_, ?_, by decide⟩ <;> decide

/-- C8 (amended): decoding of a DSID field does not depend on its RCNM
byte at all — for any first byte b, the parsed metadata agrees with the
RCNM = 10 parse except for the stored `rcnm` field. -/
theorem C8_dsid_rcnm_not_validated :
    ∀ (b : Nat) (rest : List Nat), 6 ≤ rest.length →
      parseDSID (b :: rest) = { parseDSID (10 :: rest) with rcnm := b } := by
  intro b rest h
  have h7 : ¬((b :: rest).length < 7) := by simp; omega
  have h7' : ¬((10 :: rest).length < 7) := by simp; omega
  unfold parseDSID
  rw [if_neg h7, if_neg h7']
  simp [List.getD_cons_succ, List.getD_cons_zero, List.drop_succ_cons]

/-- C8 witness: the amended statement applied to a concrete 7-byte DSID
with first byte 99. -/
theorem C8_dsid_rcnm_not_validated_witness :
    parseDSID (99 :: [0, 0, 0, 0, 1, 1]) =
      { parseDSID (10 :: [0, 0, 0, 0, 1, 1]) with rcnm := 99 } :=
  C8_dsid_rcnm_not_validated 99 [0, 0, 0, 0, 1, 1] (by norm_num)

/-- C10: for a non-empty Polygon geometry with at least 3 coordinates
whose first and last coordinates have exactly 2 components, validation
accepts the ring as closed exactly when the squared distance between the
first and last coordinates is at most epsilon² (so closure is tested with
a tolerance, not exact equality): within the tolerance, validation
proceeds to the per-coordinate range checks; beyond it, it fails with the
not-closed error.  A polygon whose first or last coordinate does not have
exactly 2 components is rejected as invalid geometry. -/
theorem C10_polygon_closure_epsilon :
    ∀ g : Geometry, g.gtype = GeometryPrim.Polygon →
      3 ≤ g.Coordinates.length →
      (((g.Coordinates.getD 0 []).length = 2 →
        ((g.Coordinates.getLast?).getD []).length = 2 →
        (((g.Coordinates.getD 0 []).getD 1 0 - ((g.Coordinates.getLast?).getD []).getD 1 0) *
            ((g.Coordinates.getD 0 []).getD 1 0 - ((g.Coordinates.getLast?).getD []).getD 1 0) +
          ((g.Coordinates.getD 0 []).getD 0 0 - ((g.Coordinates.getLast?).getD []).getD 0 0) *
            ((g.Coordinates.getD 0 []).getD 0 0 - ((g.Coordinates.getLast?).getD []).getD 0 0) ≤
            epsilon * epsilon →
          ValidateGeometry g = validateAllCoords 0 g.Coordinates) ∧
        (epsilon * epsilon <
            ((g.Coordinates.getD 0 []).getD 1 0 - ((g.Coordinates.getLast?).getD []).getD 1 0) *
              ((g.Coordinates.getD 0 []).getD 1 0 - ((g.Coordinates.getLast?).getD []).getD 1 0) +
            ((g.Coordinates.getD 0 []).getD 0 0 - ((g.Coordinates.getLast?).getD []).getD 0 0) *
              ((g.Coordinates.getD 0 []).getD 0 0 - ((g.Coordinates.getLast?).getD []).getD 0 0) →
          ValidateGeometry g = .error "polygon is not closed")) ∧
      ((g.Coordinates.getD 0 []).length ≠ 2 ∨
          ((g.Coordinates.getLast?).getD []).length ≠ 2 →
        ValidateGeometry g =
          .error "coordinate pairs must have exactly 2 values [lon, lat]")) := by
  intro g hty hlen
  have hne : ¬(g.Coordinates.length = 0) := by omega
  have hlt : ¬(g.Coordinates.length < 3) := by omega
  have h2v : ∀ hf : (g.Coordinates.getD 0 []).length = 2,
      ∀ hl : ((g.Coordinates.getLast?).getD []).length = 2,
      ¬((g.Coordinates.getD 0 []).length ≠ 2 ∨
        ((g.Coordinates.getLast?).getD []).length ≠ 2) := by
    intro hf hl
    exact fun hor => hor.elim (fun hne2 => hne2 hf) (fun hne2 => hne2 hl)
  refine ⟨fun hf hl => ⟨fun hclose => ?_, fun hfar => ?_⟩, fun hbad => ?_⟩
  · unfold ValidateGeometry
    rw [if_neg hne, hty, if_neg hlt, if_neg (h2v hf hl), if_neg (not_lt.mpr hclose)]
  · unfold ValidateGeometry
    rw [if_neg hne, hty, if_neg hlt, if_neg (h2v hf hl), if_pos hfar]
  · unfold ValidateGeometry
    rw [if_neg hne, hty, if_neg hlt, if_pos hbad]

/-- C10 witness: a concrete polygon whose last coordinate differs from its
first by 10⁻¹⁰ in longitude is accepted as closed (squared distance 10⁻²⁰
is within epsilon² = 10⁻¹⁸), and validation reduces to the per-coordinate
checks, which succeed. -/
theorem C10_polygon_closure_epsilon_witness :
    ValidateGeometry
        { gtype := GeometryPrim.Polygon,
          Coordinates := [[0, 0], [2, 0], [0, 2], [1 / 10000000000, 0]] } =
      validateAllCoords 0 [[0, 0], [2, 0], [0, 2], [1 / 10000000000, 0]] ∧
    validateAllCoords 0 [[0, 0], [2, 0], [0, 2], [1 / 10000000000, 0]] = .ok () :=
  ⟨((C10_polygon_closure_epsilon
      { gtype := GeometryPrim.Polygon,
        Coordinates := [[0, 0], [2, 0], [0, 2], [1 / 10000000000, 0]] }
      rfl (by norm_num)).1 (by norm_num) (by norm_num)).1
      (by norm_num [epsilon]),
   by norm_num [validateAllCoords, ValidateCoordinate]⟩

/-- C1: the merger applies RUIN semantics per composite key.  For features
(key (AGEN, FIDN, FIDS)): INSERT of a present key rewrites the record the
key points to, in place, leaving the index unchanged; INSERT of an absent
key appends the record and indexes it; DELETE of an absent key is a no-op
returning no error; MODIFY of a present key rewrites the record in place;
MODIFY of an absent key fails with an error naming the key.  For spatial
records (key (RCNM, RCID)): INSERT replaces in place when present and
appends when absent; DELETE of an absent key is a no-op; MODIFY of a
present key replaces; MODIFY of an absent key fails naming the key. -/
theorem C1_ruin_semantics :
    (∀ (chart : chartData) (rec : featureRecord) (id : Nat),
      lookupFeature chart.featuresByID
          { AGEN := rec.AGEN, FIDN := rec.FIDN, FIDS := rec.FIDS } = some id →
      applyFeatureUpdateCore chart 1 rec =
        .ok { chart with features := replaceFeature id rec chart.features }) ∧
    (∀ (chart : chartData) (rec : featureRecord),
      lookupFeature chart.featuresByID
          { AGEN := rec.AGEN, FIDN := rec.FIDN, FIDS := rec.FIDS } = none →
      applyFeatureUpdateCore chart 1 rec =
        .ok { chart with
          features := chart.features ++ [(chart.nextId, rec)]
          featuresByID := chart.featuresByID ++
            [({ AGEN := rec.AGEN, FIDN := rec.FIDN, FIDS := rec.FIDS }, chart.nextId)]
          nextId := chart.nextId + 1 }) ∧
    (∀ (chart : chartData) (rec : featureRecord),
      lookupFeature chart.featuresByID
          { AGEN := rec.AGEN, FIDN := rec.FIDN, FIDS := rec.FIDS } = none →
      applyFeatureUpdateCore chart 2 rec = .ok chart) ∧
    (∀ (chart : chartData) (rec : featureRecord) (id : Nat),
      lookupFeature chart.featuresByID
          { AGEN := rec.AGEN, FIDN := rec.FIDN, FIDS := rec.FIDS } = some id →
      applyFeatureUpdateCore chart 3 rec =
        .ok { chart with features := replaceFeature id rec chart.features }) ∧
    (∀ (chart : chartData) (rec : featureRecord),
      lookupFeature chart.featuresByID
          { AGEN := rec.AGEN, FIDN := rec.FIDN, FIDS := rec.FIDS } = none →
      applyFeatureUpdateCore chart 3 rec =
        .error ("MODIFY: feature (AGEN=" ++ toString rec.AGEN ++
          ", FIDN=" ++ toString rec.FIDN ++
          ", FIDS=" ++ toString rec.FIDS ++ ") not found")) ∧
    (∀ (chart : chartData) (srec : spatialRecord) (s : spatialRecord),
      lookupSpatialKey chart.spatialRecords
          { RCNM := srec.RecordType, RCID := srec.ID } = some s →
      applySpatialUpdateCore chart 1 srec =
        .ok { chart with spatialRecords :=
          chart.spatialRecords.map (fun p =>
            if p.1 = { RCNM := srec.RecordType, RCID := srec.ID } then
              ({ RCNM := srec.RecordType, RCID := srec.ID }, srec)
            else p) }) ∧
    (∀ (chart : chartData) (srec : spatialRecord),
      lookupSpatialKey chart.spatialRecords
          { RCNM := srec.RecordType, RCID := srec.ID } = none →
      applySpatialUpdateCore chart 1 srec =
        .ok { chart with spatialRecords :=
          chart.spatialRecords ++
            [({ RCNM := srec.RecordType, RCID := srec.ID }, srec)] }) ∧
    (∀ (chart : chartData) (srec : spatialRecord),
      lookupSpatialKey chart.spatialRecords
          { RCNM := srec.RecordType, RCID := srec.ID } = none →
      applySpatialUpdateCore chart 2 srec = .ok chart) ∧
    (∀ (chart : chartData) (srec : spatialRecord) (s : spatialRecord),
      lookupSpatialKey chart.spatialRecords
          { RCNM := srec.RecordType, RCID := srec.ID } = some s →
      applySpatialUpdateCore chart 3 srec =
        .ok { chart with spatialRecords :=
          (setSpatialKey chart.spatialRecords
            { RCNM := srec.RecordType, RCID := srec.ID } srec) }) ∧
    (∀ (chart : chartData) (srec : spatialRecord),
      lookupSpatialKey chart.spatialRecords
          { RCNM := srec.RecordType, RCID := srec.ID } = none →
      applySpatialUpdateCore chart 3 srec =
        .error ("MODIFY: spatial record (RCNM=" ++ toString srec.RecordType ++
          ", RCID=" ++ toString srec.ID ++ ") not found")) := by
  have hset : ∀ (chart : chartData) (srec : spatialRecord),
      (lookupSpatialKey chart.spatialRecords
        { RCNM := srec.RecordType, RCID := srec.ID }).isSome →
      setSpatialKey chart.spatialRecords
          { RCNM := srec.RecordType, RCID := srec.ID } srec =
        chart.spatialRecords.map (fun p =>
          if p.1 = { RCNM := srec.RecordType, RCID := srec.ID } then
            ({ RCNM := srec.RecordType, RCID := srec.ID }, srec)
          else p) := by
    intro chart srec h
    unfold setSpatialKey
    unfold lookupSpatialKey at h
    cases hf : chart.spatialRecords.find?
        (fun p => p.1 = { RCNM := srec.RecordType, RCID := srec.ID }) with
    | none => rw [hf] at h; simp at h
    | some p => simp
  have hsetnone : ∀ (chart : chartData) (srec : spatialRecord),
      lookupSpatialKey chart.spatialRecords
          { RCNM := srec.RecordType, RCID := srec.ID } = none →
      setSpatialKey chart.spatialRecords
          { RCNM := srec.RecordType, RCID := srec.ID } srec =
        chart.spatialRecords ++
          [({ RCNM := srec.RecordType, RCID := srec.ID }, srec)] := by
    intro chart srec h
    unfold setSpatialKey
    unfold lookupSpatialKey at h
    cases hf : chart.spatialRecords.find?
        (fun p => p.1 = { RCNM := srec.RecordType, RCID := srec.ID }) with
    | some p => rw [hf] at h; simp at h
    | none => simp
  refine ⟨?_, ?_, ?_, ?_, ?_, ?_, ?_, ?_, ?_, ?_⟩
  · intro chart rec id h
    unfold applyFeatureUpdateCore
    rw [if_pos rfl, h]
  · intro chart rec h
    unfold applyFeatureUpdateCore
    rw [if_pos rfl, h]
  · intro chart rec h
    unfold applyFeatureUpdateCore
    rw [if_neg (by norm_num), if_pos rfl, h]
  · intro chart rec id h
    unfold applyFeatureUpdateCore
    rw [if_neg (by norm_num), if_neg (by norm_num), if_pos rfl, h]
  · intro chart rec h
    unfold applyFeatureUpdateCore
    rw [if_neg (by norm_num), if_neg (by norm_num), if_pos rfl, h]
  · intro chart srec s h
    unfold applySpatialUpdateCore
    rw [if_pos rfl, hset chart srec (by rw [h]; rfl)]
  · intro chart srec h
    unfold applySpatialUpdateCore
    rw [if_pos rfl, hsetnone chart srec h]
  · intro chart srec h
    unfold applySpatialUpdateCore
    rw [if_neg (by norm_num), if_pos rfl, h]
  · intro chart srec s h
    unfold applySpatialUpdateCore
    rw [if_neg (by norm_num), if_neg (by norm_num), if_pos rfl, h]
  · intro chart srec h
    unfold applySpatialUpdateCore
    rw [if_neg (by norm_num), if_neg (by norm_num), if_pos rfl, h]

/-- C1 witness: on the empty chart, MODIFY of the absent key (540, 1, 0)
fails naming the key, DELETE of the same absent key is a no-op, and
INSERT of it appends the record. -/
theorem C1_ruin_semantics_witness :
    applyFeatureUpdateCore emptyChart 3 demoFeature =
      .error ("MODIFY: feature (AGEN=" ++ toString demoFeature.AGEN ++
        ", FIDN=" ++ toString demoFeature.FIDN ++
        ", FIDS=" ++ toString demoFeature.FIDS ++ ") not found") ∧
    applyFeatureUpdateCore emptyChart 2 demoFeature = .ok emptyChart ∧
    applyFeatureUpdateCore emptyChart 1 demoFeature =
      .ok { emptyChart with
        features := emptyChart.features ++ [(emptyChart.nextId, demoFeature)]
        featuresByID := emptyChart.featuresByID ++
          [({ AGEN := demoFeature.AGEN, FIDN := demoFeature.FIDN,
              FIDS := demoFeature.FIDS }, emptyChart.nextId)]
        nextId := emptyChart.nextId + 1 } :=
  ⟨C1_ruin_semantics.2.2.2.2.1 emptyChart demoFeature rfl,
   C1_ruin_semantics.2.2.1 emptyChart demoFeature rfl,
   C1_ruin_semantics.2.1 emptyChart demoFeature rfl⟩

/-- The feature-update switch never touches the chart metadata. -/
theorem applyFeatureUpdateCore_metadata (chart : chartData) (ruin : Nat)
    (rec : featureRecord) (chart' : chartData)
    (h : applyFeatureUpdateCore chart ruin rec = .ok chart') :
    chart'.metadata = chart.metadata := by
  unfold applyFeatureUpdateCore at h
  dsimp only at h
  repeat' split at h
  all_goals
    first
      | (have h2 := Except.ok.inj h; subst h2; rfl)
      | exact Except.noConfusion h

/-- The spatial-update switch never touches the chart metadata. -/
theorem applySpatialUpdateCore_metadata (chart : chartData) (ruin : Nat)
    (rec : spatialRecord) (chart' : chartData)
    (h : applySpatialUpdateCore chart ruin rec = .ok chart') :
    chart'.metadata = chart.metadata := by
  unfold applySpatialUpdateCore at h
  dsimp only at h
  repeat' split at h
  all_goals
    first
      | (have h2 := Except.ok.inj h; subst h2; rfl)
      | exact Except.noConfusion h

/-- The VRID arm of the update loop never touches the metadata. -/
theorem applySpatialStep_metadata (chart : chartData) (record : Record)
    (params : datasetParams) (chart' : chartData)
    (h : applySpatialStep chart record params = .ok chart') :
    chart'.metadata = chart.metadata := by
  unfold applySpatialStep at h
  cases hv : getField record "VRID" with
  | none =>
    rw [hv] at h
    have h2 := Except.ok.inj h
    subst h2
    rfl
  | some vridData =>
    rw [hv] at h
    dsimp only at h
    by_cases hl : vridData.length ≥ 8
    · rw [if_pos hl] at h
      unfold applySpatialUpdate at h
      cases hp : parseSpatialRecordWithParams record params.COMF params.SOMF with
      | none => rw [hp] at h; exact Except.noConfusion h
      | some srec =>
        rw [hp] at h
        exact applySpatialUpdateCore_metadata _ _ _ _ h
    · rw [if_neg hl] at h
      have h2 := Except.ok.inj h
      subst h2
      rfl

/-- The per-record arm of the update loop never touches the metadata. -/
theorem applyRecordStep_metadata (chart : chartData) (record : Record)
    (params : datasetParams) (chart' : chartData)
    (h : applyRecordStep chart record params = .ok chart') :
    chart'.metadata = chart.metadata := by
  unfold applyRecordStep at h
  cases hf : getField record "FRID" with
  | none =>
    rw [hf] at h
    exact applySpatialStep_metadata _ _ _ _ h
  | some fridData =>
    rw [hf] at h
    dsimp only at h
    by_cases hlen : fridData.length ≥ 12
    · rw [if_pos hlen] at h
      unfold applyFeatureUpdate at h
      cases hp : parseFeatureRecord record with
      | none => rw [hp] at h; exact Except.noConfusion h
      | some fr =>
        rw [hp] at h
        exact applyFeatureUpdateCore_metadata _ _ _ _ h
    · rw [if_neg hlen] at h
      exact applySpatialStep_metadata _ _ _ _ h

/-- The whole record loop never touches the metadata. -/
theorem applyUpdateRecords_metadata :
    ∀ (records : List Record) (params : datasetParams) (chart chart' : chartData),
      applyUpdateRecords params chart records = .ok chart' →
      chart'.metadata = chart.metadata := by
  intro records
  induction records with
  | nil =>
    intro params chart chart' h
    unfold applyUpdateRecords at h
    simp only [Except.ok.injEq] at h
    subst h
    rfl
  | cons record rest ih =>
    intro params chart chart' h
    unfold applyUpdateRecords at h
    cases hstep : applyRecordStep chart record params with
    | error e => rw [hstep] at h; simp at h
    | ok chart1 =>
      rw [hstep] at h
      calc chart'.metadata = chart1.metadata := ih params chart1 chart' h
        _ = chart.metadata := applyRecordStep_metadata chart record params chart1 hstep

/-- C6: a successfully applied update file carrying a DSID changes at most
the metadata fields UPDN, UADT and ISDT; the record name and id, exchange
purpose, intended usage, dataset name (DSNM), edition number (EDTN), S-57
edition, product specification fields, application profile, producing
agency, and comment are all unchanged by update application. -/
theorem C6_metadata_frame :
    ∀ (chart : chartData) (records : List Record) (params : datasetParams)
      (chart' : chartData),
      (extractDSID records).isSome = true →
      applyUpdate chart records params = .ok chart' →
      chart'.metadata.rcnm = chart.metadata.rcnm ∧
      chart'.metadata.rcid = chart.metadata.rcid ∧
      chart'.metadata.expp = chart.metadata.expp ∧
      chart'.metadata.intu = chart.metadata.intu ∧
      chart'.metadata.dsnm = chart.metadata.dsnm ∧
      chart'.metadata.edtn = chart.metadata.edtn ∧
      chart'.metadata.sted = chart.metadata.sted ∧
      chart'.metadata.prsp = chart.metadata.prsp ∧
      chart'.metadata.psdn = chart.metadata.psdn ∧
      chart'.metadata.pred = chart.metadata.pred ∧
      chart'.metadata.prof = chart.metadata.prof ∧
      chart'.metadata.agen = chart.metadata.agen ∧
      chart'.metadata.comt = chart.metadata.comt := by
  intro chart records params chart' _hdsid h
  unfold applyUpdate at h
  cases hloop : applyUpdateRecords params chart records with
  | error e => rw [hloop] at h; simp at h
  | ok chart1 =>
    rw [hloop] at h
    have h1 : chart1.metadata = chart.metadata :=
      applyUpdateRecords_metadata records params chart chart1 hloop
    cases hd : extractDSID records with
    | none =>
      rw [hd] at h
      simp only [Except.ok.injEq] at h
      subst h
      rw [h1]
      exact ⟨rfl, rfl, rfl, rfl, rfl, rfl, rfl, rfl, rfl, rfl, rfl, rfl, rfl⟩
    | some updatedDSID =>
      rw [hd] at h
      simp only [Except.ok.injEq] at h
      subst h
      simp [h1]

/-- C6 witness: applying a one-record update file whose DSID sets UPDN to
"1" to the demo chart leaves every non-update metadata field unchanged. -/
theorem C6_metadata_frame_witness :
    ({ demoChart with metadata :=
        { demoChart.metadata with updn := "1" } } : chartData).metadata.dsnm =
      demoChart.metadata.dsnm ∧
    ({ demoChart with metadata :=
        { demoChart.metadata with updn := "1" } } : chartData).metadata.edtn =
      demoChart.metadata.edtn :=
  have h := C6_metadata_frame demoChart demoUpdateRecords defaultDatasetParams
    { demoChart with metadata := { demoChart.metadata with updn := "1" } }
    (by decide) (by rfl)
  ⟨h.2.2.2.2.1, h.2.2.2.2.2.1⟩

/-- A ring whose first and last coordinates differ (or that is too short)
is not closed. -/
theorem isRingClosed_eq_false_of_head_ne_last (c : List Point2)
    (hd : c.head? ≠ c.getLast?) : isRingClosed c = false := by
  unfold isRingClosed
  by_cases hl : c.length < 3
  · simp [hl]
  · rw [if_neg hl]
    cases hh : c.head? with
    | none => rfl
    | some f =>
      cases hg : c.getLast? with
      | none => rfl
      | some l =>
        have hfl : f ≠ l := by
          intro he
          exact hd (by rw [hh, hg, he])
        simp [hfl]

/-- C3: ring construction iterates the (edge, orientation) pairs in order,
appending each loaded edge's oriented full coordinate sequence; the first
new coordinate is dropped exactly when the ring in progress is non-empty,
the new sequence is non-empty, and the ring's last coordinate equals the
new first coordinate (exact equality on both components); after the loop,
when the ring is non-empty and its first and last coordinates differ, the
first coordinate is appended; and for the triangle of three
forward-oriented edges n1→n2→n3→n1 the output is the single 4-coordinate
ring [n1, n2, n3, n1]. -/
theorem C3_ring_construction :
    (∀ (recs : List (spatialKey × spatialRecord)) (edgeRef : spatialRef)
        (rest : List spatialRef) (coords : List Point2) (e : edge),
      loadEdge recs edgeRef.RCID = .ok e →
      ((coords.length > 0 ∧
          (getFullEdgeCoordinates recs e edgeRef.Orientation).length > 0 ∧
          coords.getLast? =
            (getFullEdgeCoordinates recs e edgeRef.Orientation).head?) →
        ringLoop recs (edgeRef :: rest) coords =
          ringLoop recs rest
            (coords ++ (getFullEdgeCoordinates recs e edgeRef.Orientation).tail)) ∧
      (¬(coords.length > 0 ∧
          (getFullEdgeCoordinates recs e edgeRef.Orientation).length > 0 ∧
          coords.getLast? =
            (getFullEdgeCoordinates recs e edgeRef.Orientation).head?) →
        ringLoop recs (edgeRef :: rest) coords =
          ringLoop recs rest
            (coords ++ getFullEdgeCoordinates recs e edgeRef.Orientation))) ∧
    (∀ (recs : List (spatialKey × spatialRecord)) (edgeRefs : List spatialRef),
      ringLoop recs edgeRefs [] ≠ [] →
      (ringLoop recs edgeRefs []).head? ≠ (ringLoop recs edgeRefs []).getLast? →
      buildRingsWithOrientation recs edgeRefs =
        .ok [ringLoop recs edgeRefs [] ++ (ringLoop recs edgeRefs []).take 1]) ∧
    buildRingsWithOrientation triRecs triRefs =
      .ok [[((0 : ℚ), (0 : ℚ)), (1, 0), (0, 1), (0, 0)]] := by
  refine ⟨?_, ?_, ?_⟩
  · intro recs edgeRef rest coords e hload
    constructor
    · intro hcond
      conv_lhs => rw [ringLoop]
      rw [hload]
      dsimp only
      rw [if_pos hcond]
    · intro hcond
      conv_lhs => rw [ringLoop]
      rw [hload]
      dsimp only
      rw [if_neg hcond]
  · intro recs edgeRefs hne hd
    have hcl : isRingClosed (ringLoop recs edgeRefs []) = false :=
      isRingClosed_eq_false_of_head_ne_last _ hd
    have hlen : (ringLoop recs edgeRefs []).length > 0 := List.length_pos.mpr hne
    have hcond : (ringLoop recs edgeRefs []).length > 0 ∧
        ¬(isRingClosed (ringLoop recs edgeRefs []) = true) := by
      refine ⟨hlen, ?_⟩
      rw [hcl]
      simp
    have hcond2 : ¬((ringLoop recs edgeRefs [] ++
        (ringLoop recs edgeRefs []).take 1).length = 0) := by
      rw [List.length_append]
      omega
    unfold buildRingsWithOrientation
    dsimp only
    rw [if_pos hcond, if_neg hcond2]
  · rfl

/-- C3 witness: the dedup step applied concretely — appending the
triangle's second edge (1,0)→(0,1) to the ring in progress [(0,0),(1,0)]
drops the duplicated shared endpoint. -/
theorem C3_ring_construction_witness :
    ringLoop triRecs [{ RCID := 2, Orientation := 1, Usage := 1, Mask := 2 }]
        [((0 : ℚ), (0 : ℚ)), (1, 0)] =
      ringLoop triRecs []
        ([((0 : ℚ), (0 : ℚ)), (1, 0)] ++
          (getFullEdgeCoordinates triRecs
            { ID := 2, Points := [], StartNodeID := 12, EndNodeID := 13 } 1).tail) :=
  (C3_ring_construction.1 triRecs
    { RCID := 2, Orientation := 1, Usage := 1, Mask := 2 } []
    [((0 : ℚ), (0 : ℚ)), (1, 0)]
    { ID := 2, Points := [], StartNodeID := 12, EndNodeID := 13 }
    (by rfl)).1 (by refine ⟨by norm_num, by decide, ?_⟩; rfl)

/-- Unfolding equation for the walk at a cons pointer list. -/
theorem resolveVPR_cons_eq (recs : List (spatialKey × spatialRecord))
    (fuel : Nat) (ptr : vectorPointer) (rest : List vectorPointer)
    (visited : List Int) :
    resolveVectorPointersRecursive recs (fuel + 1) (ptr :: rest) visited =
      if ptr.TargetRCID ∈ visited then
        resolveVectorPointersRecursive recs (fuel + 1) rest visited
      else
        match lookupSpatialKey recs
            { RCNM := ptr.TargetRCNM, RCID := ptr.TargetRCID } with
        | none =>
          resolveVectorPointersRecursive recs (fuel + 1) rest
            (ptr.TargetRCID :: visited)
        | some target =>
          match (if target.Coordinates.length > 0 then
              some (target.Coordinates.map (fun c => [c.getD 0 0, c.getD 1 0]),
                ptr.TargetRCID :: visited)
            else if target.VectorPointers.length > 0 then
              resolveVectorPointersRecursive recs fuel target.VectorPointers
                (ptr.TargetRCID :: visited)
            else some ([], ptr.TargetRCID :: visited)) with
          | none => none
          | some (tc, visited2) =>
            match resolveVectorPointersRecursive recs (fuel + 1) rest visited2 with
            | none => none
            | some (more, visited3) =>
              some ((if ptr.Orientation = 2 then tc.reverse else tc) ++ more,
                visited3) := by
  rw [resolveVectorPointersRecursive]

/-- Unfolding equation for the walk at the empty pointer list. -/
theorem resolveVPR_nil_eq (recs : List (spatialKey × spatialRecord))
    (fuel : Nat) (visited : List Int) :
    resolveVectorPointersRecursive recs (fuel + 1) [] visited =
      some ([], visited) := by
  rw [resolveVectorPointersRecursive]

/-- A successful map lookup means the key's RCID is among the record RCIDs. -/
theorem lookupSpatialKey_rcid_mem (recs : List (spatialKey × spatialRecord))
    (k : spatialKey) (v : spatialRecord)
    (h : lookupSpatialKey recs k = some v) : k.RCID ∈ rcidFinset recs := by
  unfold lookupSpatialKey at h
  cases hf : recs.find? (fun p => p.1 = k) with
  | none => rw [hf] at h; simp at h
  | some p =>
    have hmem := List.mem_of_find?_eq_some hf
    have hp := List.find?_some hf
    have hk : p.1 = k := by simpa using hp
    unfold rcidFinset
    rw [List.mem_toFinset, ← hk]
    exact List.mem_map_of_mem _ hmem

/-- Visiting a fresh RCID of the record map strictly shrinks the measure. -/
theorem unvisitedCount_lt (recs : List (spatialKey × spatialRecord)) (a : Int)
    (visited : List Int) (hmem : a ∈ rcidFinset recs) (hnv : a ∉ visited) :
    unvisitedCount recs (a :: visited) < unvisitedCount recs visited := by
  unfold unvisitedCount
  apply Finset.card_lt_card
  rw [Finset.ssubset_def]
  constructor
  · intro x hx
    rw [Finset.mem_filter] at hx ⊢
    exact ⟨hx.1, fun hxv => hx.2 (List.mem_cons_of_mem _ hxv)⟩
  · intro hsub
    have ha : a ∈ (rcidFinset recs).filter (fun x => x ∉ visited) := by
      rw [Finset.mem_filter]
      exact ⟨hmem, hnv⟩
    have ha2 := hsub ha
    rw [Finset.mem_filter] at ha2
    exact ha2.2 (List.mem_cons_self a visited)

/-- Growing the visited list never grows the measure. -/
theorem unvisitedCount_le (recs : List (spatialKey × spatialRecord))
    (v1 v2 : List Int) (hsub : ∀ x ∈ v1, x ∈ v2) :
    unvisitedCount recs v2 ≤ unvisitedCount recs v1 := by
  unfold unvisitedCount
  apply Finset.card_le_card
  intro x hx
  rw [Finset.mem_filter] at hx ⊢
  exact ⟨hx.1, fun hv1 => hx.2 (hsub x hv1)⟩

/-- Master induction for the walk: the returned visited list extends the
input one and stays duplicate-free, and fuel above the measure never runs
out. -/
theorem resolveVPR_master (recs : List (spatialKey × spatialRecord)) :
    ∀ (fuel : Nat) (ptrs : List vectorPointer) (visited : List Int),
      (∀ r v', resolveVectorPointersRecursive recs fuel ptrs visited = some (r, v') →
        (∀ x ∈ visited, x ∈ v') ∧ (visited.Nodup → v'.Nodup)) ∧
      (unvisitedCount recs visited < fuel →
        (resolveVectorPointersRecursive recs fuel ptrs visited).isSome = true) := by
  intro fuel
  induction fuel with
  | zero =>
    intro ptrs visited
    constructor
    · intro r v' h
      simp [resolveVectorPointersRecursive] at h
    · intro hmu
      exact absurd hmu (Nat.not_lt_zero _)
  | succ fuel ihf =>
    intro ptrs
    induction ptrs with
    | nil =>
      intro visited
      constructor
      · intro r v' h
        rw [resolveVPR_nil_eq] at h
        have h2 := Option.some.inj h
        have hv : visited = v' := congrArg Prod.snd h2
        subst hv
        exact ⟨fun x hx => hx, fun hn => hn⟩
      · intro _
        rw [resolveVPR_nil_eq]
        rfl
    | cons ptr rest ihp =>
      intro visited
      by_cases hmem : ptr.TargetRCID ∈ visited
      · rw [resolveVPR_cons_eq, if_pos hmem]
        exact ihp visited
      · rw [resolveVPR_cons_eq, if_neg hmem]
        cases hlk : lookupSpatialKey recs
            { RCNM := ptr.TargetRCNM, RCID := ptr.TargetRCID } with
        | none =>
          constructor
          · intro r v' h
            obtain ⟨hsub, hnd⟩ := (ihp (ptr.TargetRCID :: visited)).1 r v' h
            exact ⟨fun x hx => hsub x (List.mem_cons_of_mem _ hx),
              fun hn => hnd (List.nodup_cons.mpr ⟨hmem, hn⟩)⟩
          · intro hmu
            apply (ihp (ptr.TargetRCID :: visited)).2
            have hle := unvisitedCount_le recs visited (ptr.TargetRCID :: visited)
              (fun x hx => List.mem_cons_of_mem _ hx)
            omega
        | some target =>
          dsimp only
          have hrcid : ptr.TargetRCID ∈ rcidFinset recs :=
            lookupSpatialKey_rcid_mem recs _ target hlk
          by_cases hco : target.Coordinates.length > 0
          · rw [if_pos hco]
            dsimp only
            constructor
            · intro r v' h
              cases hrest : resolveVectorPointersRecursive recs (fuel + 1) rest
                  (ptr.TargetRCID :: visited) with
              | none => rw [hrest] at h; exact absurd h (by simp)
              | some p =>
                obtain ⟨more, v3⟩ := p
                rw [hrest] at h
                have h2 := Option.some.inj h
                have hv : v3 = v' := congrArg Prod.snd h2
                subst hv
                obtain ⟨hsub, hnd⟩ := (ihp (ptr.TargetRCID :: visited)).1 more v3 hrest
                exact ⟨fun x hx => hsub x (List.mem_cons_of_mem _ hx),
                  fun hn => hnd (List.nodup_cons.mpr ⟨hmem, hn⟩)⟩
            · intro hmu
              have hle := unvisitedCount_le recs visited (ptr.TargetRCID :: visited)
                (fun x hx => List.mem_cons_of_mem _ hx)
              have hs := (ihp (ptr.TargetRCID :: visited)).2 (by omega)
              cases hrest : resolveVectorPointersRecursive recs (fuel + 1) rest
                  (ptr.TargetRCID :: visited) with
              | none => rw [hrest] at hs; exact absurd hs (by simp)
              | some p =>
                obtain ⟨more, v3⟩ := p
                rfl
          · rw [if_neg hco]
            by_cases hvp : target.VectorPointers.length > 0
            · rw [if_pos hvp]
              have hltmu : ∀ hmu : unvisitedCount recs visited < fuel + 1,
                  unvisitedCount recs (ptr.TargetRCID :: visited) < fuel := by
                intro hmu
                have := unvisitedCount_lt recs ptr.TargetRCID visited hrcid hmem
                omega
              constructor
              · intro r v' h
                cases hinner : resolveVectorPointersRecursive recs fuel
                    target.VectorPointers (ptr.TargetRCID :: visited) with
                | none => rw [hinner] at h; exact absurd h (by simp)
                | some q =>
                  obtain ⟨tc, v2⟩ := q
                  rw [hinner] at h
                  dsimp only at h
                  cases hrest : resolveVectorPointersRecursive recs (fuel + 1)
                      rest v2 with
                  | none => rw [hrest] at h; exact absurd h (by simp)
                  | some p =>
                    obtain ⟨more, v3⟩ := p
                    rw [hrest] at h
                    have h2 := Option.some.inj h
                    have hv : v3 = v' := congrArg Prod.snd h2
                    subst hv
                    obtain ⟨hsub2, hnd2⟩ := (ihf target.VectorPointers
                      (ptr.TargetRCID :: visited)).1 tc v2 hinner
                    obtain ⟨hsub3, hnd3⟩ := (ihp v2).1 more v3 hrest
                    refine ⟨fun x hx => hsub3 x (hsub2 x (List.mem_cons_of_mem _ hx)),
                      fun hn => hnd3 (hnd2 (List.nodup_cons.mpr ⟨hmem, hn⟩))⟩
              · intro hmu
                have hsi := (ihf target.VectorPointers
                  (ptr.TargetRCID :: visited)).2 (hltmu hmu)
                cases hinner : resolveVectorPointersRecursive recs fuel
                    target.VectorPointers (ptr.TargetRCID :: visited) with
                | none => rw [hinner] at hsi; exact absurd hsi (by simp)
                | some q =>
                  obtain ⟨tc, v2⟩ := q
                  dsimp only
                  obtain ⟨hsub2, _⟩ := (ihf target.VectorPointers
                    (ptr.TargetRCID :: visited)).1 tc v2 hinner
                  have hle1 := unvisitedCount_le recs visited
                    (ptr.TargetRCID :: visited) (fun x hx => List.mem_cons_of_mem _ hx)
                  have hle2 := unvisitedCount_le recs
                    (ptr.TargetRCID :: visited) v2 hsub2
                  have hsr := (ihp v2).2 (by omega)
                  cases hrest : resolveVectorPointersRecursive recs (fuel + 1)
                      rest v2 with
                  | none => rw [hrest] at hsr; exact absurd hsr (by simp)
                  | some p =>
                    obtain ⟨more, v3⟩ := p
                    rfl
            · rw [if_neg hvp]
              dsimp only
              constructor
              · intro r v' h
                cases hrest : resolveVectorPointersRecursive recs (fuel + 1) rest
                    (ptr.TargetRCID :: visited) with
                | none => rw [hrest] at h; exact absurd h (by simp)
                | some p =>
                  obtain ⟨more, v3⟩ := p
                  rw [hrest] at h
                  have h2 := Option.some.inj h
                  have hv : v3 = v' := congrArg Prod.snd h2
                  subst hv
                  obtain ⟨hsub, hnd⟩ := (ihp (ptr.TargetRCID :: visited)).1 more v3 hrest
                  exact ⟨fun x hx => hsub x (List.mem_cons_of_mem _ hx),
                    fun hn => hnd (List.nodup_cons.mpr ⟨hmem, hn⟩)⟩
              · intro hmu
                have hle := unvisitedCount_le recs visited (ptr.TargetRCID :: visited)
                  (fun x hx => List.mem_cons_of_mem _ hx)
                have hs := (ihp (ptr.TargetRCID :: visited)).2 (by omega)
                cases hrest : resolveVectorPointersRecursive recs (fuel + 1) rest
                    (ptr.TargetRCID :: visited) with
                | none => rw [hrest] at hs; exact absurd hs (by simp)
                | some p =>
                  obtain ⟨more, v3⟩ := p
                  rfl

/-- C9: the indirect VRPT coordinate walk is cycle-safe.  The entry point
always yields a result (the fuel, one more than the number of record RCIDs,
never runs out — the Go recursion terminates even on cyclic or
self-referential pointer graphs); with fuel above the unvisited count the
walk never exhausts fuel; a duplicate-free visited set stays
duplicate-free through the whole walk (each target RCID is visited at most
once); and a pointer whose target RCID is already in the visited set is
skipped: the walk continues on the remaining pointers with nothing added. -/
theorem C9_vrpt_walk_cycle_safe :
    (∀ (spatial : spatialRecord) (recs : List (spatialKey × spatialRecord)),
      (resolveVectorPointers spatial recs).isSome = true) ∧
    (∀ (recs : List (spatialKey × spatialRecord)) (fuel : Nat)
        (ptrs : List vectorPointer) (visited : List Int),
      unvisitedCount recs visited < fuel →
      (resolveVectorPointersRecursive recs fuel ptrs visited).isSome = true) ∧
    (∀ (recs : List (spatialKey × spatialRecord)) (fuel : Nat)
        (ptrs : List vectorPointer) (visited : List Int)
        (r : List (List ℚ)) (v' : List Int),
      visited.Nodup →
      resolveVectorPointersRecursive recs fuel ptrs visited = some (r, v') →
      v'.Nodup) ∧
    (∀ (recs : List (spatialKey × spatialRecord)) (fuel : Nat)
        (ptr : vectorPointer) (rest : List vectorPointer) (visited : List Int),
      ptr.TargetRCID ∈ visited →
      resolveVectorPointersRecursive recs (fuel + 1) (ptr :: rest) visited =
        resolveVectorPointersRecursive recs (fuel + 1) rest visited) := by
  refine ⟨?_, ?_, ?_, ?_⟩
  · intro spatial recs
    unfold resolveVectorPointers
    have hs := (resolveVPR_master recs (unvisitedCount recs [] + 1)
      spatial.VectorPointers []).2 (by omega)
    cases hr : resolveVectorPointersRecursive recs (unvisitedCount recs [] + 1)
        spatial.VectorPointers [] with
    | none => rw [hr] at hs; exact absurd hs (by simp)
    | some p => rfl
  · intro recs fuel ptrs visited hmu
    exact (resolveVPR_master recs fuel ptrs visited).2 hmu
  · intro recs fuel ptrs visited r v' hnd h
    exact ((resolveVPR_master recs fuel ptrs visited).1 r v' h).2 hnd
  · intro recs fuel ptr rest visited hmem
    rw [resolveVPR_cons_eq, if_pos hmem]

/-- C9 witness: the walk over the one-node cyclic fixture terminates with a
result, keeps the visited set duplicate-free, and the fuel bound holds at
the concrete measure. -/
theorem C9_vrpt_walk_cycle_safe_witness :
    (resolveVectorPointers cyclicNode cyclicRecs).isSome = true ∧
    (resolveVectorPointersRecursive cyclicRecs 2 cyclicNode.VectorPointers []).isSome
      = true :=
  ⟨C9_vrpt_walk_cycle_safe.1 cyclicNode cyclicRecs,
   C9_vrpt_walk_cycle_safe.2.1 cyclicRecs 2 cyclicNode.VectorPointers [] (by decide)⟩

end S57
